import Mathlib

/-!
Shallow embedding of the wildfire danger assessment engine
(`src/lib/dangerLevels.ts`) of the ForestProject backend.

Modelling conventions:

* JavaScript numbers are modelled as exact rationals (`ℚ`).  All values
  the engine manipulates (thresholds, weights, scores) are decimal
  literals, so rational arithmetic mirrors the source exactly on the
  inputs the theorems use.
* Calendar dates are modelled as parsed `(year, month, day)` triples
  (month 1-based, as in the `YYYY-MM-DD` strings the code builds and then
  re-parses with `new Date`).  For such a date, `getMonth()` is
  `month - 1`, `getFullYear()` is `year` and `getTime()` is the number of
  milliseconds since the Unix epoch of the UTC midnight of that civil
  date (the server is assumed to run in UTC).
* The wall clock read through `new Date()` is passed around explicitly as
  a `Clock` value (its `getTime` / `getMonth` / `getFullYear` views).
* The great-circle helper `calculateDistance` is imported from
  `src/lib/utils.ts`, a file that is not part of the sources; every
  definition that needs it takes the distance function as an explicit
  parameter, so every theorem below holds for an arbitrary distance
  function, in particular for the real haversine implementation.
* The active-fire network fetch is modelled by a `FetchResult` input: a
  thrown error, a non-ok HTTP status, or a successfully parsed GeoJSON
  body.
-/

/-- The `DangerLevel` string union type of the source. -/
inductive DangerLevel
  | noRisk
  | normal
  | low
  | medium
  | high
  | veryHigh
  | extreme
  deriving DecidableEq, Repr, BEq

/-- The `dangerLevels` array (weakest to strongest), as written both in
`assessDangerLevel` and in `determineRiskLevel`. -/
def dangerLevels : List DangerLevel :=
  [DangerLevel.noRisk, DangerLevel.normal, DangerLevel.low, DangerLevel.medium,
   DangerLevel.high, DangerLevel.veryHigh, DangerLevel.extreme]

/-- `dangerLevels.indexOf(l)` of the source. -/
def levelIndex (l : DangerLevel) : Nat :=
  dangerLevels.findIdx (fun x => x == l)

/-- `dangerLevels[i]` of the source.  The source only ever indexes with a
`Math.max` of two valid indices, so the out-of-range default is never
reached. -/
def levelOfIndex (i : Nat) : DangerLevel :=
  dangerLevels.getD i DangerLevel.noRisk

/-- The string literal carried by each `DangerLevel` value. -/
def levelToString : DangerLevel → String
  | DangerLevel.noRisk => "no risk"
  | DangerLevel.normal => "normal"
  | DangerLevel.low => "low"
  | DangerLevel.medium => "medium"
  | DangerLevel.high => "high"
  | DangerLevel.veryHigh => "very high"
  | DangerLevel.extreme => "extreme"

/-- `location: {lat, lng}` of `EnvironmentalData`. -/
structure Location where
  lat : ℚ
  lng : ℚ
  deriving DecidableEq, Repr

/-- The `EnvironmentalData` interface.  Optional numeric fields are
`Option ℚ` (`none` = the field is `undefined`). -/
structure EnvironmentalData where
  temperature : ℚ
  airQuality : Option ℚ := none
  windSpeed : Option ℚ := none
  humidity : Option ℚ := none
  drynessIndex : Option ℚ := none
  timeOfDay : Option ℚ := none
  location : Location
  deriving DecidableEq, Repr

/-- The `DangerAssessment` interface. -/
structure DangerAssessment where
  level : DangerLevel
  description : String
  deriving DecidableEq, Repr

/-- `assessDangerLevel` (PART 2, basic threshold logic).  The
`TEMP_THRESHOLDS` / `AQI_THRESHOLDS` cascades are translated branch for
branch; the overall level is `dangerLevels[Math.max(indexOf tempLevel,
indexOf aqiLevel)]`. -/
def assessDangerLevel (data : EnvironmentalData) : DangerAssessment :=
  let tempLevel : DangerLevel :=
    if data.temperature ≥ 60 then DangerLevel.extreme
    else if data.temperature ≥ 45 then DangerLevel.veryHigh
    else if data.temperature ≥ 35 then DangerLevel.high
    else if data.temperature ≥ 25 then DangerLevel.medium
    else if data.temperature ≥ 15 then DangerLevel.low
    else if data.temperature ≥ 5 then DangerLevel.normal
    else DangerLevel.noRisk
  let aqiLevel : DangerLevel :=
    match data.airQuality with
    | none => DangerLevel.noRisk
    | some aq =>
      if aq ≥ 300 then DangerLevel.extreme
      else if aq ≥ 200 then DangerLevel.veryHigh
      else if aq ≥ 150 then DangerLevel.high
      else if aq ≥ 100 then DangerLevel.medium
      else if aq ≥ 50 then DangerLevel.low
      else DangerLevel.normal
  let overallLevel : DangerLevel :=
    levelOfIndex (max (levelIndex tempLevel) (levelIndex aqiLevel))
  let description : String :=
    if overallLevel ≠ DangerLevel.noRisk then
      s!"Temperature classification: {levelToString tempLevel}. AQI classification: {levelToString aqiLevel}."
    else "No significant environmental concerns detected."
  { level := overallLevel, description := description }

/- =========================================
   PART 3) HISTORICAL RECORD LOADING
   ========================================= -/

/-- A parsed `YYYY-MM-DD` calendar date (month and day 1-based). -/
structure FireDate where
  year : ℤ
  month : ℤ
  day : ℤ
  deriving DecidableEq, Repr

/-- `location: {latitude, longitude}` of `HistoricalFireRecord`. -/
structure FireLocation where
  latitude : ℚ
  longitude : ℚ
  deriving DecidableEq, Repr

/-- The unified `HistoricalFireRecord` interface.  The `date` string of
the source is carried in parsed form (see the module header). -/
structure HistoricalFireRecord where
  fire_id : String
  date : FireDate
  cause : String
  area_burned : ℚ
  severity : String
  location : FireLocation
  incident_name : Option String := none
  deriving DecidableEq, Repr

/-- A JavaScript value as produced by `JSON.parse` (after the loader's
textual `NaN` → `null` substitution, so numeric values are always finite
rationals), or the absent field `undefined`. -/
inductive JVal
  | jnum (q : ℚ)
  | jstr (s : String)
  | jbool (b : Bool)
  | jnull
  | jabsent
  | jother
  deriving DecidableEq, Repr

/-- The `raw.location` object when present: its `latitude` / `longitude`
fields. -/
structure RawLocation where
  latitude : JVal
  longitude : JVal
  deriving DecidableEq, Repr

/-- A raw entry handed to `unifyRecord` (the fields the function probes).
`location = none` models `!raw.location` (absent, `null` or otherwise
falsy).  `dateField` models `raw.date`, already parsed: `some d` when
`raw.date` is a truthy string (parsed by `new Date`), `none` otherwise. -/
structure RawRecord where
  year : JVal := JVal.jabsent
  month : JVal := JVal.jabsent
  day : JVal := JVal.jabsent
  dateField : Option FireDate := none
  cause : JVal := JVal.jabsent
  severity : JVal := JVal.jabsent
  area_burned : JVal := JVal.jabsent
  location : Option RawLocation := none
  fire_id : JVal := JVal.jabsent
  incident_name : JVal := JVal.jabsent
  deriving DecidableEq, Repr

/-- Leading-digit run of a character list, as consumed by `parseInt`. -/
def digitsValue : List Char → Option ℕ → Option ℕ
  | [], acc => acc
  | c :: rest, acc =>
    if c.isDigit then
      digitsValue rest (some ((acc.getD 0) * 10 + (c.toNat - '0'.toNat)))
    else acc

/-- JavaScript `parseInt(v, 10)`: `none` models a `NaN` result.  Numbers
are first converted to their decimal string, which for the integral
values found in the datasets means truncation toward zero; strings are
parsed as an optional sign followed by leading digits. -/
def parseIntJ : JVal → Option ℤ
  | JVal.jnum q => some (if q ≥ 0 then ⌊q⌋ else ⌈q⌉)
  | JVal.jstr s =>
    match s.toList with
    | '-' :: rest => (digitsValue rest none).map (fun n => -(n : ℤ))
    | '+' :: rest => (digitsValue rest none).map (fun n => (n : ℤ))
    | chars => (digitsValue chars none).map (fun n => (n : ℤ))
  | _ => none

/-- JavaScript `String.prototype.trim` (leading and trailing whitespace
removed), implemented on the character list. -/
def jsTrim (s : String) : String :=
  String.mk
    (((s.data.dropWhile Char.isWhitespace).reverse.dropWhile
      Char.isWhitespace).reverse)

/-- JavaScript `String.prototype.toUpperCase` (ASCII case mapping),
implemented on the character list. -/
def jsToUpper (s : String) : String :=
  String.mk (s.data.map Char.toUpper)

/-- JavaScript `String.prototype.toLowerCase` (ASCII case mapping),
implemented on the character list. -/
def jsToLower (s : String) : String :=
  String.mk (s.data.map Char.toLower)

/-- `pat` occurs as a contiguous prefix of `s`. -/
def prefixMatches : List Char → List Char → Bool
  | [], _ => true
  | _ :: _, [] => false
  | a :: as, b :: bs => a == b && prefixMatches as bs

/-- JavaScript `String.prototype.includes`, on character lists. -/
def containsSub (pat : List Char) : List Char → Bool
  | [] => prefixMatches pat []
  | c :: rest => prefixMatches pat (c :: rest) || containsSub pat rest

/-- `haystack.includes(needle)` on strings. -/
def strIncludes (haystack needle : String) : Bool :=
  containsSub needle.toList haystack.toList

/-- `unifyCause`: falsy or non-string causes become `"Unknown"`; known
short codes are canonicalised; anything else passes through
upper-cased. -/
def unifyCause (causeVal : JVal) : String :=
  match causeVal with
  | JVal.jstr s =>
    if s = "" then "Unknown"
    else
      let c := jsToUpper (jsTrim s)
      if c = "MAN" ∨ c = "PERSON" ∨ c = "H" then "Human"
      else if c = "LTG" ∨ c = "LIGHTNING" then "Lightning"
      else if c = "SPONTANEOUS" ∨ c = "SPONT" then "Spontaneous"
      else c
  | _ => "Unknown"

/-- `unifySeverity`: falsy or non-string severities become `"low"`;
otherwise lower-cased with the three substring rewrites of the source. -/
def unifySeverity (sevVal : JVal) : String :=
  match sevVal with
  | JVal.jstr s =>
    if s = "" then "low"
    else
      let t := jsToLower (jsTrim s)
      if strIncludes t "very low" then "low"
      else if strIncludes t "extreme" then "extreme"
      else if strIncludes t "very high" then "very high"
      else t
  | _ => "low"

/-- The date-resolution block of `unifyRecord`, on parsed dates: the
`(Year, Month, Day)` path clamps month to `[1,12]` and day to `[1,31]`
with default 1 (a `NaN` parse also fails the range test, hence defaults
to 1); an unparseable `Year` — which in the source yields a garbage date
string — is represented by year 0; otherwise the parsed `raw.date`
string, else the `1970-01-01` fallback. -/
def unifyDate (raw : RawRecord) : FireDate :=
  if raw.year ≠ JVal.jabsent ∧ raw.month ≠ JVal.jabsent then
    let y := parseIntJ raw.year
    let m := parseIntJ raw.month
    let d := parseIntJ raw.day
    let safeMonth : ℤ :=
      match m with
      | some mv => if 1 ≤ mv ∧ mv ≤ 12 then mv else 1
      | none => 1
    let safeDay : ℤ :=
      match d with
      | some dv => if 1 ≤ dv ∧ dv ≤ 31 then dv else 1
      | none => 1
    { year := y.getD 0, month := safeMonth, day := safeDay }
  else
    match raw.dateField with
    | some fd => fd
    | none => { year := 1970, month := 1, day := 1 }

/-- The `area_burned` block of `unifyRecord`: a (finite) raw number is
copied, everything else defaults to 0. -/
def unifyArea (raw : RawRecord) : ℚ :=
  match raw.area_burned with
  | JVal.jnum q => q
  | _ => 0

/-- `raw.fire_id ? String(raw.fire_id) : 'unknown-id'`. -/
def unifyFireId (raw : RawRecord) : String :=
  match raw.fire_id with
  | JVal.jstr s => if s = "" then "unknown-id" else s
  | JVal.jnum q => if q = 0 then "unknown-id" else toString q
  | JVal.jbool b => if b then "true" else "unknown-id"
  | _ => "unknown-id"

/-- The `incident_name` block of `unifyRecord`: kept only when a truthy
string. -/
def unifyIncident (raw : RawRecord) : Option String :=
  match raw.incident_name with
  | JVal.jstr s => if s = "" then none else some s
  | _ => none

/-- `unifyRecord`.  Returns `none` exactly when the source returns
`null` (no usable numeric coordinates); otherwise assembles the unified
record from the blocks above. -/
def unifyRecord (raw : RawRecord) : Option HistoricalFireRecord :=
  match raw.location with
  | none => none
  | some loc =>
    match loc.latitude, loc.longitude with
    | JVal.jnum lat, JVal.jnum lng =>
      some
        { fire_id := unifyFireId raw
          date := unifyDate raw
          cause := unifyCause raw.cause
          area_burned := unifyArea raw
          severity := unifySeverity raw.severity
          location := { latitude := lat, longitude := lng }
          incident_name := unifyIncident raw }
    | _, _ => none

/- =========================================
   PART 4) WEIGHTING & PENALTY FUNCTIONS
   ========================================= -/

/-- The wall clock read through `new Date()`: its `getTime()` (ms since
epoch), `getMonth()` (0-based) and `getFullYear()` views. -/
structure Clock where
  timeMs : ℚ
  month : ℤ
  year : ℤ
  deriving DecidableEq, Repr

/-- Days from the Unix epoch to the civil date `(y, m, d)` (proleptic
Gregorian), computed with floor division; agrees with JavaScript
`Date.UTC(y, m - 1, d) / 86400000` on valid calendar dates. -/
def daysFromCivil (y m d : ℤ) : ℤ :=
  let yAdj := if m ≤ 2 then y - 1 else y
  let era := Int.fdiv yAdj 400
  let yoe := yAdj - era * 400
  let mp := m + (if m > 2 then -3 else 9)
  let doy := Int.fdiv (153 * mp + 2) 5 + d - 1
  let doe := yoe * 365 + Int.fdiv yoe 4 - Int.fdiv yoe 100 + doy
  era * 146097 + doe - 719468

/-- `new Date(dateStr).getTime()` for a parsed `YYYY-MM-DD` date (UTC
midnight). -/
def dateTimeMs (fd : FireDate) : ℚ :=
  ((daysFromCivil fd.year fd.month fd.day : ℤ) : ℚ) * 86400000

/-- `getRecencyFactor` (weighted recency factor). -/
def getRecencyFactor (now : Clock) (fireDate : FireDate) : ℚ :=
  let msInYear : ℚ := 1000 * 3600 * 24 * 365
  let yearsAgo := (now.timeMs - dateTimeMs fireDate) / msInYear
  if yearsAgo ≤ 2 then 1
  else if yearsAgo ≤ 5 then 0.8
  else if yearsAgo ≤ 10 then 0.5
  else 0.2

/-- `getCauseFactor` (cause-based weighting). -/
def getCauseFactor (cause : String) : ℚ :=
  let c := jsToLower cause
  if c = "lightning" then 1.2
  else if c = "human" then 1.1
  else if c = "spontaneous" then 1.05
  else 1

/-- `getSeasonalityFactor` (region-specific seasonality factor).
`fireMonth` is the 0-based `getMonth()` of the fire date. -/
def getSeasonalityFactor (now : Clock) (fireDate : FireDate) (lat lng : ℚ) : ℚ :=
  let currentMonth := now.month
  let fireMonth := fireDate.month - 1
  let factor : ℚ := 1
  let factor := if lat > 55 then factor * 1.05 else factor
  let factor := if lng < -120 then factor * 1.02 else factor
  let factor := if fireMonth = currentMonth then factor * 1.15 else factor
  let factor := if 4 ≤ fireMonth ∧ fireMonth ≤ 8 then factor * 1.1 else factor
  factor

/-- `getDistanceWeight` (distance-based weighting). -/
def getDistanceWeight (distKm maxRadius : ℚ) : ℚ :=
  if distKm ≤ 10 then 1
  else if distKm ≥ maxRadius then 0.1
  else
    let frac := (distKm - 10) / (maxRadius - 10)
    1 - 0.9 * frac

/-- `getPenaltyByConsecutiveCount`. -/
def getPenaltyByConsecutiveCount (count : ℕ) : ℚ :=
  if count = 2 then 0.2
  else if count = 3 then 0.5
  else if count ≥ 4 then 1
  else 0

/-- The scan of `getConsecutiveYearPenalty` over the (sorted) tail of the
year list: `prev` is the last year seen and `c` the current run length. -/
def consecScan : ℤ → ℕ → List ℤ → ℚ
  | _, c, [] => if c ≥ 2 then getPenaltyByConsecutiveCount c else 0
  | prev, c, y :: ys =>
    if y = prev + 1 then consecScan y (c + 1) ys
    else (if c ≥ 2 then getPenaltyByConsecutiveCount c else 0) + consecScan y 1 ys

/-- `years.sort((a, b) => a - b)`: ascending sort of the fire years. -/
def sortYears (fires : List HistoricalFireRecord) : List ℤ :=
  (fires.map (fun f => f.date.year)).insertionSort (fun a b => a ≤ b)

/-- `getConsecutiveYearPenalty` (consecutive-year penalty). -/
def getConsecutiveYearPenalty (fires : List HistoricalFireRecord) : ℚ :=
  if fires.length < 2 then 0
  else
    match sortYears fires with
    | [] => 0
    | y :: ys => consecScan y 1 ys

/-- `getOverlappingFiresPenalty` (overlapping fires penalty): for each
calendar year carrying more than one fire, `0.1 × (count − 1)`. -/
def getOverlappingFiresPenalty (fires : List HistoricalFireRecord) : ℚ :=
  let years := fires.map (fun f => f.date.year)
  (years.dedup.map (fun y =>
    let count := years.count y
    if count > 1 then ((count : ℚ) - 1) * 0.1 else 0)).sum

/-- The terrain classification parameter of
`adjustSeverityForLandscape`. -/
inductive TerrainType
  | grassland
  | forest
  | unknown
  deriving DecidableEq, Repr

/-- `adjustSeverityForLandscape` (severity weighting with the
grassland discount). -/
def adjustSeverityForLandscape (severity : String) (yearsAgo : ℤ)
    (terrainType : TerrainType) : ℚ :=
  let s := jsToLower severity
  let base : ℚ :=
    if strIncludes s "extreme" ∨ strIncludes s "very high" then 3
    else if strIncludes s "high" then 2
    else if strIncludes s "medium" then 1
    else 0
  if terrainType = TerrainType.grassland ∧ yearsAgo > 5 then base * 0.5
  else base

/- =========================================
   PART 5) MAIN SCORING FUNCTION
   ========================================= -/

/-- The per-fire term of the `for (const fire of fires)` loop of
`computeRiskFromHistoryAndRealTime`: the product of severity, area,
recency, cause, seasonality and distance factors. -/
def fireScore (distFn : Location → FireLocation → ℚ) (now : Clock)
    (env : EnvironmentalData) (maxRadius : ℚ) (fire : HistoricalFireRecord) : ℚ :=
  let dist := distFn env.location fire.location
  let recencyFactor := getRecencyFactor now fire.date
  let causeFactor := getCauseFactor fire.cause
  let seasonalityFactor :=
    getSeasonalityFactor now fire.date fire.location.latitude fire.location.longitude
  let distanceFactor := getDistanceWeight dist maxRadius
  let yearsAgo := now.year - fire.date.year
  let severityValue :=
    adjustSeverityForLandscape fire.severity yearsAgo TerrainType.unknown
  let areaFactor : ℚ := if fire.area_burned > 500 then 1.5 else 1
  severityValue * areaFactor * recencyFactor * causeFactor * seasonalityFactor *
    distanceFactor

/-- The `env.temperature` bonus block of
`computeRiskFromHistoryAndRealTime`. -/
def tempBonus (t : ℚ) : ℚ :=
  if t ≥ 60 then 20 else if t ≥ 45 then 10 else if t ≥ 35 then 5
  else if t ≥ 25 then 2 else 0

/-- The `env.airQuality` bonus block. -/
def aqiBonus : Option ℚ → ℚ
  | none => 0
  | some aq =>
    if aq ≥ 300 then 5 else if aq ≥ 200 then 3 else if aq ≥ 150 then 2
    else if aq ≥ 100 then 1 else 0

/-- The `env.drynessIndex` bonus block. -/
def drynessBonus : Option ℚ → ℚ
  | none => 0
  | some d => if d ≥ 90 then 8 else if d ≥ 80 then 5 else if d ≥ 60 then 2 else 0

/-- The `env.humidity` bonus block. -/
def humidityBonus : Option ℚ → ℚ
  | none => 0
  | some h => if h < 10 then 6 else if h < 20 then 3 else if h < 30 then 1 else 0

/-- The `env.windSpeed` bonus block. -/
def windBonus : Option ℚ → ℚ
  | none => 0
  | some w => if w > 60 then 8 else if w > 40 then 4 else if w > 25 then 2 else 0

/-- The `env.timeOfDay` bonus block. -/
def timeBonus : Option ℚ → ℚ
  | none => 0
  | some t => if 13 ≤ t ∧ t ≤ 17 then 1 else 0

/-- `computeRiskFromHistoryAndRealTime`: the summed per-fire scores, the
two penalties, the frequency score `Math.min(fires.length, 5)` and the
real-time bonus blocks. -/
def computeRiskFromHistoryAndRealTime (distFn : Location → FireLocation → ℚ)
    (now : Clock) (env : EnvironmentalData) (fires : List HistoricalFireRecord)
    (maxRadius : ℚ) : ℚ :=
  let historicalScore := (fires.map (fireScore distFn now env maxRadius)).sum
  let consecutivePenalty := getConsecutiveYearPenalty fires
  let overlapPenalty := getOverlappingFiresPenalty fires
  let frequencyScore : ℚ := ((min fires.length 5 : ℕ) : ℚ)
  historicalScore + consecutivePenalty + overlapPenalty + frequencyScore +
    tempBonus env.temperature + aqiBonus env.airQuality +
    drynessBonus env.drynessIndex + humidityBonus env.humidity +
    windBonus env.windSpeed + timeBonus env.timeOfDay

/-- The score-based risk level cascade at the head of
`determineRiskLevel`. -/
def scoreBasedRiskOf (totalScore : ℚ) : DangerLevel :=
  if totalScore ≥ 35 then DangerLevel.extreme
  else if totalScore ≥ 20 then DangerLevel.veryHigh
  else if totalScore ≥ 12 then DangerLevel.high
  else if totalScore ≥ 6 then DangerLevel.medium
  else if totalScore ≥ 2 then DangerLevel.low
  else DangerLevel.noRisk

/-- `determineRiskLevel`: the higher (by `dangerLevels` index) of the
score-based level and the basic assessment level. -/
def determineRiskLevel (totalScore : ℚ) (basicAssessmentLevel : DangerLevel) :
    DangerLevel :=
  let scoreBasedRisk := scoreBasedRiskOf totalScore
  levelOfIndex (max (levelIndex scoreBasedRisk) (levelIndex basicAssessmentLevel))

/- =========================================
   PART 7) Active-Fire GeoJSON Check
   ========================================= -/

/-- A GeoJSON position `[lng, lat]` as destructured by the source. -/
structure GeoPoint where
  lng : ℚ
  lat : ℚ
  deriving DecidableEq, Repr

/-- The `geometry.type` tag together with the matching `coordinates`
shape.  GeoJSON requires a `Polygon` to carry at least one ring, and the
source only ever reads `coordinates[0]`, so the polygon constructor
carries that first ring (plus the ignored remaining rings).
`otherShape` covers any other geometry type, for which `getBoundingBox`
leaves its accumulators untouched. -/
inductive GeoCoordinates
  | polygon (ring0 : List GeoPoint) (restRings : List (List GeoPoint))
  | multiPolygon (polygons : List (List (List GeoPoint)))
  | otherShape
  deriving DecidableEq, Repr

/-- `feature.geometry` content; the `Option` on `coordinates` models a
`null` `coordinates` member. -/
structure GeoGeometry where
  coordinates : Option GeoCoordinates
  deriving DecidableEq, Repr

/-- A `GeoJsonFeature`; `geometry = none` models a `null`/absent
geometry. -/
structure GeoJsonFeature where
  geometry : Option GeoGeometry
  deriving DecidableEq, Repr

/-- A parsed response body: `features = none` models a missing or
non-array `features` member. -/
structure GeoJsonResponse where
  features : Option (List GeoJsonFeature)
  deriving DecidableEq, Repr

/-- The outcome of `fetch(ACTIVE_FIRE_URL)`: a thrown error (network
failure or JSON parse error), a non-ok HTTP status, or a parsed body. -/
inductive FetchResult
  | failure
  | httpError
  | success (body : GeoJsonResponse)
  deriving DecidableEq, Repr

/-- A bounding box `[minLat, minLng, maxLat, maxLng]`. -/
structure BoundingBox where
  minLat : ℚ
  minLng : ℚ
  maxLat : ℚ
  maxLng : ℚ
  deriving DecidableEq, Repr

/-- Extend a bounding-box accumulator with one point (the four `if`
updates of the source loops). -/
def extendBox (box : BoundingBox) (p : GeoPoint) : BoundingBox :=
  { minLat := if p.lat < box.minLat then p.lat else box.minLat
    maxLat := if p.lat > box.maxLat then p.lat else box.maxLat
    minLng := if p.lng < box.minLng then p.lng else box.minLng
    maxLng := if p.lng > box.maxLng then p.lng else box.maxLng }

/-- The accumulator start values `minLat = 9999, maxLat = -9999,
minLng = 9999, maxLng = -9999`. -/
def emptyBox : BoundingBox :=
  { minLat := 9999, minLng := 9999, maxLat := -9999, maxLng := -9999 }

/-- `getBoundingBox`: for a `Polygon` only the first ring is scanned; for
a `MultiPolygon` every ring of every sub-polygon; any other geometry type
leaves the accumulators at their (empty, never-containing) start
values. -/
def getBoundingBox : GeoCoordinates → BoundingBox
  | GeoCoordinates.polygon ring0 _ => ring0.foldl extendBox emptyBox
  | GeoCoordinates.multiPolygon polygons =>
    polygons.foldl (fun box rings =>
      rings.foldl (fun b ring => ring.foldl extendBox b) box) emptyBox
  | GeoCoordinates.otherShape => emptyBox

/-- `isPointInBoundingBox` (inclusive bounds). -/
def isPointInBoundingBox (lat lng : ℚ) (box : BoundingBox) : Bool :=
  decide (box.minLat ≤ lat) && decide (lat ≤ box.maxLat) &&
    decide (box.minLng ≤ lng) && decide (lng ≤ box.maxLng)

/-- The `for (const feature of geojson.features)` loop of
`getActiveFirePenalty`: features without a geometry or without
coordinates are skipped (`continue`); the first feature whose bounding
box contains the point returns 5 immediately. -/
def firePenaltyScan (lat lng : ℚ) : List GeoJsonFeature → ℚ
  | [] => 0
  | f :: rest =>
    match f.geometry with
    | none => firePenaltyScan lat lng rest
    | some geometry =>
      match geometry.coordinates with
      | none => firePenaltyScan lat lng rest
      | some coords =>
        let boundingBox := getBoundingBox coords
        if isPointInBoundingBox lat lng boundingBox then 5
        else firePenaltyScan lat lng rest

/-- `getActiveFirePenalty`: every failure mode (thrown fetch error,
non-ok status, missing/non-array `features`) yields 0; otherwise the
feature scan.  Being a total function into `ℚ`, it can never raise to its
caller. -/
def getActiveFirePenalty (env : EnvironmentalData) (feed : FetchResult) : ℚ :=
  match feed with
  | FetchResult.failure => 0
  | FetchResult.httpError => 0
  | FetchResult.success body =>
    match body.features with
    | none => 0
    | some features => firePenaltyScan env.location.lat env.location.lng features

/- =========================================
   PART 6) getWildfireRisk ENTRY POINT
   ========================================= -/

/-- The adaptive-radius selection of `getWildfireRisk`: count records
within the 50 km probe radius; `> 20` tightens to 30 km, `< 5` widens to
75 km, otherwise 50 km. -/
def chooseRadius (distFn : Location → FireLocation → ℚ)
    (historicalData : List HistoricalFireRecord) (loc : Location) : ℚ :=
  let quickCandidate :=
    historicalData.filter (fun f => decide (distFn loc f.location ≤ 50))
  if quickCandidate.length > 20 then 30
  else if quickCandidate.length < 5 then 75
  else 50

/-- The candidate ordering used by `candidateFires.sort`: ascending
distance from the query point. -/
def nearerThan (distFn : Location → FireLocation → ℚ) (loc : Location)
    (a b : HistoricalFireRecord) : Prop :=
  distFn loc a.location ≤ distFn loc b.location

instance (distFn : Location → FireLocation → ℚ) (loc : Location) :
    DecidableRel (nearerThan distFn loc) :=
  fun _ _ => inferInstanceAs (Decidable (_ ≤ _))

/-- The candidate selection of `getWildfireRisk`: filter by the working
radius, sort ascending by distance, keep the first 15
(`candidateFires.slice(0, 15)`). -/
def selectNearestFires (distFn : Location → FireLocation → ℚ)
    (historicalData : List HistoricalFireRecord) (loc : Location) (radius : ℚ) :
    List HistoricalFireRecord :=
  let candidateFires :=
    historicalData.filter (fun fire => decide (distFn loc fire.location ≤ radius))
  (candidateFires.insertionSort (nearerThan distFn loc)).take 15

/-- `totalScore.toFixed(2)` on an exact rational: the value rounded to
hundredths, printed with two decimal places. -/
def toFixed2 (q : ℚ) : String :=
  let scaled : ℤ := ⌊q * 100 + 1 / 2⌋
  let n := scaled.natAbs
  let intPart := n / 100
  let frac := n % 100
  let fracStr := if frac < 10 then "0" ++ toString frac else toString frac
  (if scaled < 0 then "-" else "") ++ toString intPart ++ "." ++ fracStr

/-- The `WildfireRiskResult` shape returned by `getWildfireRisk` (the
`riskLevel` string is carried as the enumeration value). -/
structure WildfireRiskResult where
  riskLevel : DangerLevel
  riskExplanation : String
  deriving DecidableEq, Repr

/-- `getWildfireRisk` (the risk orchestrator).  The historical store (the
module-level `historicalData` after `loadHistoricalWildfireData`), the
wall clock and the active-fire feed outcome are explicit inputs; the
distance function stands for `calculateDistance`.  `ACTIVE_FIRE_URL` is a
non-empty constant in the source, so the active-fire branch is always
taken. -/
def getWildfireRisk (distFn : Location → FireLocation → ℚ) (now : Clock)
    (historicalData : List HistoricalFireRecord) (feed : FetchResult)
    (env : EnvironmentalData) : WildfireRiskResult :=
  let basicAssessment := assessDangerLevel env
  let radius := chooseRadius distFn historicalData env.location
  let nearestFires := selectNearestFires distFn historicalData env.location radius
  let baseScore := computeRiskFromHistoryAndRealTime distFn now env nearestFires radius
  let penalty := getActiveFirePenalty env feed
  let totalScore := if penalty > 0 then baseScore + penalty else baseScore
  let activeFireNote :=
    if penalty > 0 then
      s!"\nActive Fire Penalty = {toString penalty}. Location is near/inside an active perimeter."
    else ""
  let riskLevel := determineRiskLevel totalScore basicAssessment.level
  let riskExplanation :=
    s!"\n      Adaptive Radius: {toString radius} km\n      Found {toString nearestFires.length} fires within radius\n      Basic Assessment: {levelToString basicAssessment.level} ({basicAssessment.description})\n      Final Score: {toFixed2 totalScore} => {levelToString riskLevel}.{activeFireNote}\n    "
  { riskLevel := riskLevel, riskExplanation := riskExplanation }

/- =========================================
   SPEC-SIDE DEFINITIONS AND FIXTURES
   ========================================= -/

/-- The specification's score→level table (§4.6 step 7), written from the
spec's words for comparison with the code's `scoreBasedRiskOf`. -/
def specScoreLevel (s : ℚ) : DangerLevel :=
  if s ≥ 35 then DangerLevel.extreme
  else if s ≥ 20 then DangerLevel.veryHigh
  else if s ≥ 12 then DangerLevel.high
  else if s ≥ 6 then DangerLevel.medium
  else if s ≥ 2 then DangerLevel.low
  else DangerLevel.noRisk

/-- The specification's "the stronger (higher-index) level wins" merge
(§3), written from the spec's words. -/
def specStrongerLevel (a b : DangerLevel) : DangerLevel :=
  if levelIndex a ≤ levelIndex b then b else a

/-- The specification's per-run penalty: 0.2 for a run of exactly 2
consecutive years, 0.5 for exactly 3, 1.0 for 4 or more, nothing for a
trivial run. -/
def runPenalty (c : ℕ) : ℚ :=
  if c = 2 then 0.2
  else if c = 3 then 0.5
  else if 4 ≤ c then 1
  else 0

/-- Lengths of the maximal runs of consecutive (step exactly +1) values
in the tail of a sorted year list; `prev` is the last year seen and `c`
the length of the current run. -/
def runLengthsAux : ℤ → ℕ → List ℤ → List ℕ
  | _, c, [] => [c]
  | prev, c, y :: ys =>
    if y = prev + 1 then runLengthsAux y (c + 1) ys
    else c :: runLengthsAux y 1 ys

/-- Lengths of the maximal runs of consecutive years in a sorted year
list (spec's "find runs of consecutive years sorted ascending"). -/
def runLengths : List ℤ → List ℕ
  | [] => []
  | y :: ys => runLengthsAux y 1 ys

/-- Whether a feature's bounding box (as computed by `getBoundingBox`)
contains the query point: the per-feature test of the
`getActiveFirePenalty` loop, skipping features without geometry or
coordinates. -/
def featureBoxContains (lat lng : ℚ) (f : GeoJsonFeature) : Bool :=
  match f.geometry with
  | none => false
  | some geometry =>
    match geometry.coordinates with
    | none => false
    | some coords => isPointInBoundingBox lat lng (getBoundingBox coords)

/-- A degenerate distance function (every record at the query point);
used to instantiate theorems at concrete inputs where all involved
locations coincide, for which the real haversine distance is also 0. -/
def zeroDist : Location → FireLocation → ℚ := fun _ _ => 0

/-- A concrete historical record: an extreme-severity fire on
2020-01-01 at the origin. -/
def fireA : HistoricalFireRecord :=
  { fire_id := "a", date := { year := 2020, month := 1, day := 1 },
    cause := "Unknown", area_burned := 0, severity := "extreme",
    location := { latitude := 0, longitude := 0 } }

/-- A second concrete record, year 2022 (not consecutive with 2020). -/
def fireB : HistoricalFireRecord :=
  { fire_id := "b", date := { year := 2022, month := 1, day := 1 },
    cause := "Unknown", area_burned := 0, severity := "low",
    location := { latitude := 0, longitude := 0 } }

/-- A record with fire year `y` (for the consecutive-year-penalty
instances). -/
def fireYear (y : ℤ) : HistoricalFireRecord :=
  { fire_id := "y", date := { year := y, month := 1, day := 1 },
    cause := "Unknown", area_burned := 0, severity := "low",
    location := { latitude := 0, longitude := 0 } }

/-- A hot environment (temperature 65 °C) at a northern point. -/
def envHot : EnvironmentalData :=
  { temperature := 65, location := { lat := 60, lng := -125 } }

/-- A cold environment at the origin (temperature 0 °C, nothing else
set). -/
def envCold : EnvironmentalData :=
  { temperature := 0, location := { lat := 0, lng := 0 } }

/-- A wall clock shortly after the `fireA` fire: 2021-01-01 UTC
(1609459200000 ms), June, 2021. -/
def clockRecent : Clock := { timeMs := 1609459200000, month := 5, year := 2021 }

/-- A wall clock far in the future (around 2046): more than ten years
after `fireA`. -/
def clockLate : Clock := { timeMs := 2400000000000, month := 5, year := 2046 }

/-- A raw entry with numeric coordinates and a negative numeric
`area_burned`. -/
def rawNegativeArea : RawRecord :=
  { area_burned := JVal.jnum (-1),
    location := some { latitude := JVal.jnum 50, longitude := JVal.jnum (-120) } }

/-- A raw entry with numeric coordinates and no `area_burned` field. -/
def rawNoArea : RawRecord :=
  { location := some { latitude := JVal.jnum 1, longitude := JVal.jnum 2 } }

/-- The record `unifyRecord` produces for `rawNoArea`. -/
def recNoArea : HistoricalFireRecord :=
  { fire_id := "unknown-id", date := { year := 1970, month := 1, day := 1 },
    cause := "Unknown", area_burned := 0, severity := "low",
    location := { latitude := 1, longitude := 2 } }

/- Sanity checks: the two end-to-end scenarios of spec §8. -/

example :
    (getWildfireRisk zeroDist clockRecent [] FetchResult.failure
      { temperature := 65, location := { lat := 60, lng := -125 } }).riskLevel =
      DangerLevel.extreme := by
  norm_num [getWildfireRisk, assessDangerLevel, chooseRadius, selectNearestFires,
    computeRiskFromHistoryAndRealTime, getActiveFirePenalty, getConsecutiveYearPenalty,
    getOverlappingFiresPenalty, tempBonus, aqiBonus, drynessBonus, humidityBonus,
    windBonus, timeBonus, determineRiskLevel, scoreBasedRiskOf, List.insertionSort,
    List.filter, zeroDist]
  decide

example :
    (getWildfireRisk zeroDist clockRecent [] FetchResult.failure
      { temperature := 10, location := { lat := 0, lng := 0 } }).riskLevel =
      DangerLevel.normal := by
  norm_num [getWildfireRisk, assessDangerLevel, chooseRadius, selectNearestFires,
    computeRiskFromHistoryAndRealTime, getActiveFirePenalty, getConsecutiveYearPenalty,
    getOverlappingFiresPenalty, tempBonus, aqiBonus, drynessBonus, humidityBonus,
    windBonus, timeBonus, determineRiskLevel, scoreBasedRiskOf, List.insertionSort,
    List.filter, zeroDist]
  decide

/- =========================================
   HELPER LEMMAS
   ========================================= -/

theorem determineRiskLevel_extreme_floor (s : ℚ) :
    determineRiskLevel s DangerLevel.extreme = DangerLevel.extreme := by
  unfold determineRiskLevel
  generalize scoreBasedRiskOf s = l
  cases l <;> rfl

theorem assessDangerLevel_extreme_of_temp (env : EnvironmentalData)
    (h : env.temperature ≥ 60) :
    (assessDangerLevel env).level = DangerLevel.extreme := by
  simp only [assessDangerLevel, if_pos h]
  generalize (match env.airQuality with
    | none => DangerLevel.noRisk
    | some aq =>
      if aq ≥ 300 then DangerLevel.extreme
      else if aq ≥ 200 then DangerLevel.veryHigh
      else if aq ≥ 150 then DangerLevel.high
      else if aq ≥ 100 then DangerLevel.medium
      else if aq ≥ 50 then DangerLevel.low
      else DangerLevel.normal) = l
  cases l <;> rfl

theorem getWildfireRisk_level_shape (distFn : Location → FireLocation → ℚ)
    (now : Clock) (hist : List HistoricalFireRecord) (feed : FetchResult)
    (env : EnvironmentalData) :
    ∃ s : ℚ, (getWildfireRisk distFn now hist feed env).riskLevel =
      determineRiskLevel s (assessDangerLevel env).level :=
  ⟨_, rfl⟩

/- =========================================
   CLAIMS
   ========================================= -/

/-- C1: for every environmental input with temperature ≥ 60 °C, the
threshold classifier `assessDangerLevel` reports level "extreme", and the
orchestrator `getWildfireRisk` returns riskLevel "extreme", regardless of
every other input field, the historical store contents, the wall clock,
the distance function, and the active-fire feed response. -/
theorem extremeTemp_dominates (env : EnvironmentalData) (h : env.temperature ≥ 60)
    (distFn : Location → FireLocation → ℚ) (now : Clock)
    (hist : List HistoricalFireRecord) (feed : FetchResult) :
    (assessDangerLevel env).level = DangerLevel.extreme ∧
    (getWildfireRisk distFn now hist feed env).riskLevel = DangerLevel.extreme := by
  have hfloor := assessDangerLevel_extreme_of_temp env h
  refine ⟨hfloor, ?_⟩
  obtain ⟨s, hs⟩ := getWildfireRisk_level_shape distFn now hist feed env
  rw [hs, hfloor, determineRiskLevel_extreme_floor]

/-- Witness for C1 at a concrete input: temperature 65 °C, empty store,
failed feed. -/
theorem extremeTemp_dominates_witness :
    (assessDangerLevel envHot).level = DangerLevel.extreme ∧
    (getWildfireRisk zeroDist clockRecent [] FetchResult.failure envHot).riskLevel =
      DangerLevel.extreme :=
  extremeTemp_dominates envHot (by norm_num [envHot]) zeroDist clockRecent []
    FetchResult.failure

/-- C2: for every total score and floor level, `determineRiskLevel`
returns exactly the stronger (higher `dangerLevels`-index) of the floor
level and the score-based level given by the ≥35/≥20/≥12/≥6/≥2
thresholds; the result is always one of the two inputs (never an average)
and its index is the max of the two indices (the weaker never wins). -/
theorem determineRiskLevel_is_stronger (s : ℚ) (f : DangerLevel) :
    determineRiskLevel s f = specStrongerLevel (specScoreLevel s) f ∧
    (determineRiskLevel s f = specScoreLevel s ∨ determineRiskLevel s f = f) ∧
    levelIndex (determineRiskLevel s f) =
      max (levelIndex (specScoreLevel s)) (levelIndex f) := by
  cases f <;>
    (unfold determineRiskLevel scoreBasedRiskOf specScoreLevel
     split_ifs <;> decide)

/-- C9: the score-based level is never "normal", so a final risk level of
"normal" can only come from the threshold classifier's floor. -/
theorem scoreLevel_never_normal (s : ℚ) (f : DangerLevel) :
    scoreBasedRiskOf s ≠ DangerLevel.normal ∧
    (determineRiskLevel s f = DangerLevel.normal → f = DangerLevel.normal) := by
  cases f <;>
    (unfold determineRiskLevel scoreBasedRiskOf
     split_ifs <;> decide)

/-- Witness for C9 at score 0 and floor "normal". -/
theorem scoreLevel_never_normal_witness :
    scoreBasedRiskOf 0 ≠ DangerLevel.normal ∧
    DangerLevel.normal = DangerLevel.normal :=
  ⟨(scoreLevel_never_normal 0 DangerLevel.normal).1,
   (scoreLevel_never_normal 0 DangerLevel.normal).2 (by decide)⟩

theorem firePenaltyScan_any (lat lng : ℚ) (fs : List GeoJsonFeature) :
    firePenaltyScan lat lng fs =
      if fs.any (featureBoxContains lat lng) then 5 else 0 := by
  induction fs with
  | nil => rfl
  | cons f rest ih =>
    cases hg : f.geometry with
    | none => simp [firePenaltyScan, hg, featureBoxContains, ih]
    | some g =>
      cases hc : g.coordinates with
      | none => simp [firePenaltyScan, hg, hc, featureBoxContains, ih]
      | some coords =>
        by_cases hb : isPointInBoundingBox lat lng (getBoundingBox coords) = true
        · simp [firePenaltyScan, hg, hc, featureBoxContains, hb]
        · simp [firePenaltyScan, hg, hc, featureBoxContains, hb, ih]

/-- C3: the active-fire penalty is 5 exactly when the feed fetch
succeeded with a usable feature list containing at least one feature
whose (inclusive) bounding box contains the query point — the scan
short-circuits on the first such feature, so overlapping perimeters still
yield exactly 5 — and its only other value is 0, which covers a thrown
fetch error, a non-success HTTP status and a missing or non-array
feature list.  Being a total function, it never raises to its caller. -/
theorem activeFirePenalty_spec (env : EnvironmentalData) (feed : FetchResult) :
    (getActiveFirePenalty env feed = 0 ∨ getActiveFirePenalty env feed = 5) ∧
    (getActiveFirePenalty env feed = 5 ↔
      ∃ body fs, feed = FetchResult.success body ∧ body.features = some fs ∧
        ∃ f ∈ fs, featureBoxContains env.location.lat env.location.lng f = true) := by
  cases feed with
  | failure =>
    refine ⟨Or.inl rfl, ?_, ?_⟩
    · intro h; exact absurd h (by norm_num [getActiveFirePenalty])
    · rintro ⟨body, fs, heq, -⟩; exact FetchResult.noConfusion heq
  | httpError =>
    refine ⟨Or.inl rfl, ?_, ?_⟩
    · intro h; exact absurd h (by norm_num [getActiveFirePenalty])
    · rintro ⟨body, fs, heq, -⟩; exact FetchResult.noConfusion heq
  | success body =>
    cases hfs : body.features with
    | none =>
      have hval : getActiveFirePenalty env (FetchResult.success body) = 0 := by
        simp [getActiveFirePenalty, hfs]
      refine ⟨Or.inl hval, ?_, ?_⟩
      · intro h; rw [hval] at h; exact absurd h (by norm_num)
      · rintro ⟨body2, fs, heq, hfeat, -⟩
        injection heq with h2
        subst h2
        rw [hfs] at hfeat
        exact Option.noConfusion hfeat
    | some fs =>
      have hval : getActiveFirePenalty env (FetchResult.success body) =
          if fs.any (featureBoxContains env.location.lat env.location.lng) then 5
          else 0 := by
        simp [getActiveFirePenalty, hfs, firePenaltyScan_any]
      by_cases hany :
          fs.any (featureBoxContains env.location.lat env.location.lng) = true
      · rw [if_pos hany] at hval
        refine ⟨Or.inr hval, fun _ => ?_, fun _ => hval⟩
        obtain ⟨f, hmem, hp⟩ := List.any_eq_true.mp hany
        exact ⟨body, fs, rfl, hfs, f, hmem, hp⟩
      · rw [if_neg hany] at hval
        refine ⟨Or.inl hval, ?_, ?_⟩
        · intro h; rw [hval] at h; exact absurd h (by norm_num)
        · rintro ⟨body2, fs2, heq, hfeat, f, hmem, hp⟩
          injection heq with h2
          subst h2
          rw [hfs] at hfeat
          injection hfeat with h3
          subst h3
          exact absurd (List.any_eq_true.mpr ⟨f, hmem, hp⟩) hany

theorem penaltyIf_eq_runPenalty (c : ℕ) :
    (if 2 ≤ c then getPenaltyByConsecutiveCount c else 0) = runPenalty c := by
  unfold getPenaltyByConsecutiveCount runPenalty
  rcases Nat.lt_or_ge c 2 with h | h
  · rw [if_neg (by omega : ¬ 2 ≤ c), if_neg (by omega : ¬ c = 2),
      if_neg (by omega : ¬ c = 3), if_neg (by omega : ¬ 4 ≤ c)]
  · rw [if_pos h]

theorem consecScan_runs (ys : List ℤ) : ∀ prev c, consecScan prev c ys =
    ((runLengthsAux prev c ys).map runPenalty).sum := by
  induction ys with
  | nil =>
    intro prev c
    simp [consecScan, runLengthsAux, penaltyIf_eq_runPenalty]
  | cons y ys ih =>
    intro prev c
    by_cases h : y = prev + 1
    · simp [consecScan, runLengthsAux, h, ih]
    · simp [consecScan, runLengthsAux, h, ih, penaltyIf_eq_runPenalty]

theorem consecPenalty_general (fires : List HistoricalFireRecord) :
    getConsecutiveYearPenalty fires =
      ((runLengths (sortYears fires)).map runPenalty).sum := by
  unfold getConsecutiveYearPenalty
  split_ifs with hlen
  · rcases fires with _ | ⟨f, _ | ⟨g, rest⟩⟩
    · simp [sortYears, runLengths, List.insertionSort]
    · simp [sortYears, runLengths, runLengthsAux, runPenalty, List.insertionSort,
        List.orderedInsert]
    · exact absurd hlen (by simp [List.length_cons])
  · cases hs : sortYears fires with
    | nil => simp [runLengths]
    | cons y ys =>
      show consecScan y 1 ys = _
      rw [consecScan_runs]
      rfl

/-- C5: the consecutive-year penalty equals the sum, over the maximal
runs of consecutive (step exactly +1) years in the ascending-sorted fire
year list, of 0.2 for a run of exactly 2 years, 0.5 for exactly 3, 1.0
for 4 or more; in particular years {2019, 2020, 2021} give 0.5, years
{2019, 2020, 2023, 2024} give 0.4, and years {2019, 2021} give 0. -/
theorem consecYearPenalty_spec (fires : List HistoricalFireRecord) :
    getConsecutiveYearPenalty fires =
      ((runLengths (sortYears fires)).map runPenalty).sum ∧
    getConsecutiveYearPenalty
      [fireYear 2019, fireYear 2020, fireYear 2021] = 0.5 ∧
    getConsecutiveYearPenalty
      [fireYear 2019, fireYear 2020, fireYear 2023, fireYear 2024] = 0.4 ∧
    getConsecutiveYearPenalty [fireYear 2019, fireYear 2021] = 0 := by
  refine ⟨consecPenalty_general fires, ?_, ?_, ?_⟩ <;>
    norm_num [getConsecutiveYearPenalty, sortYears, fireYear, List.insertionSort,
      List.orderedInsert, consecScan, getPenaltyByConsecutiveCount]

theorem getDistanceWeight_ge_tenth (d r : ℚ) : 0.1 ≤ getDistanceWeight d r := by
  unfold getDistanceWeight
  split_ifs with h1 h2
  · norm_num
  · norm_num
  · push_neg at h1 h2
    show (0.1 : ℚ) ≤ 1 - 0.9 * ((d - 10) / (r - 10))
    have hr10 : (0 : ℚ) < r - 10 := by linarith
    have hratio : (d - 10) / (r - 10) ≤ 1 := by
      rw [div_le_one hr10]; linarith
    linarith

theorem getDistanceWeight_le_one (d r : ℚ) : getDistanceWeight d r ≤ 1 := by
  unfold getDistanceWeight
  split_ifs with h1 h2
  · norm_num
  · norm_num
  · push_neg at h1 h2
    show (1 : ℚ) - 0.9 * ((d - 10) / (r - 10)) ≤ 1
    have h0 : (0 : ℚ) ≤ (d - 10) / (r - 10) :=
      div_nonneg (by linarith) (by linarith)
    linarith

theorem getDistanceWeight_antitone (r d e : ℚ) (hde : d ≤ e) :
    getDistanceWeight e r ≤ getDistanceWeight d r := by
  by_cases he1 : e ≤ 10
  · have hd1 : d ≤ 10 := le_trans hde he1
    have hve : getDistanceWeight e r = 1 := by
      unfold getDistanceWeight; rw [if_pos he1]
    have hvd : getDistanceWeight d r = 1 := by
      unfold getDistanceWeight; rw [if_pos hd1]
    rw [hve, hvd]
  · by_cases he2 : e ≥ r
    · have hve : getDistanceWeight e r = 0.1 := by
        unfold getDistanceWeight; rw [if_neg he1, if_pos he2]
      rw [hve]
      exact getDistanceWeight_ge_tenth d r
    · push_neg at he1 he2
      have hve : getDistanceWeight e r = 1 - 0.9 * ((e - 10) / (r - 10)) := by
        unfold getDistanceWeight
        rw [if_neg (not_le.mpr he1), if_neg (not_le.mpr he2)]
      by_cases hd1 : d ≤ 10
      · have hvd : getDistanceWeight d r = 1 := by
          unfold getDistanceWeight; rw [if_pos hd1]
        rw [hve, hvd]
        have h0 : (0 : ℚ) ≤ (e - 10) / (r - 10) :=
          div_nonneg (by linarith) (by linarith)
        linarith
      · have hd2 : ¬ d ≥ r := by push_neg; linarith
        have hvd : getDistanceWeight d r = 1 - 0.9 * ((d - 10) / (r - 10)) := by
          unfold getDistanceWeight; rw [if_neg hd1, if_neg hd2]
        rw [hve, hvd]
        push_neg at hd1
        have hr10 : (0 : ℚ) < r - 10 := by linarith
        have hratio : (d - 10) / (r - 10) ≤ (e - 10) / (r - 10) :=
          (div_le_div_iff_of_pos_right hr10).mpr (by linarith)
        linarith

/-- C6: for every radius greater than 10 km the distance factor is 1 up
to 10 km, exactly 0.1 from the radius outwards, the linear interpolation
`1 − 0.9 (d−10)/(r−10)` in between, monotonically non-increasing in the
distance, and never above 1. -/
theorem distanceWeight_spec (r : ℚ) (hr : 10 < r) :
    (∀ d, d ≤ 10 → getDistanceWeight d r = 1) ∧
    (∀ d, r ≤ d → getDistanceWeight d r = 0.1) ∧
    (∀ d, 10 < d → d < r → getDistanceWeight d r = 1 - 0.9 * ((d - 10) / (r - 10))) ∧
    (∀ d e, d ≤ e → getDistanceWeight e r ≤ getDistanceWeight d r) ∧
    (∀ d, getDistanceWeight d r ≤ 1) := by
  refine ⟨?_, ?_, ?_, fun d e hde => getDistanceWeight_antitone r d e hde,
    fun d => getDistanceWeight_le_one d r⟩
  · intro d hd
    unfold getDistanceWeight; rw [if_pos hd]
  · intro d hd
    unfold getDistanceWeight
    rw [if_neg (not_le.mpr (by linarith : (10 : ℚ) < d)), if_pos (by exact hd)]
  · intro d hd10 hdr
    unfold getDistanceWeight
    rw [if_neg (not_le.mpr hd10), if_neg (not_le.mpr hdr)]

/-- Witness for C6 at radius 20: the boundary value at distance 20 and
the interpolated value at distance 15. -/
theorem distanceWeight_spec_witness :
    getDistanceWeight 20 20 = 0.1 ∧
    getDistanceWeight 15 20 = 1 - 0.9 * ((15 - 10) / (20 - 10)) :=
  ⟨(distanceWeight_spec 20 (by norm_num)).2.1 20 le_rfl,
   (distanceWeight_spec 20 (by norm_num)).2.2.1 15 (by norm_num) (by norm_num)⟩

theorem selectNearestFires_length_le (distFn : Location → FireLocation → ℚ)
    (hist : List HistoricalFireRecord) (loc : Location) (radius : ℚ) :
    (selectNearestFires distFn hist loc radius).length ≤ 15 := by
  unfold selectNearestFires
  exact List.length_take_le 15 _

theorem selectNearestFires_mem (distFn : Location → FireLocation → ℚ)
    (hist : List HistoricalFireRecord) (loc : Location) (radius : ℚ) :
    ∀ f ∈ selectNearestFires distFn hist loc radius,
      f ∈ hist ∧ distFn loc f.location ≤ radius := by
  intro f hf
  unfold selectNearestFires at hf
  have hf2 := List.mem_of_mem_take hf
  rw [List.mem_insertionSort] at hf2
  obtain ⟨hmem, hp⟩ := List.mem_filter.mp hf2
  exact ⟨hmem, of_decide_eq_true hp⟩

theorem selectNearestFires_sorted (distFn : Location → FireLocation → ℚ)
    (hist : List HistoricalFireRecord) (loc : Location) (radius : ℚ) :
    (selectNearestFires distFn hist loc radius).Sorted (nearerThan distFn loc) := by
  haveI : IsTotal HistoricalFireRecord (nearerThan distFn loc) :=
    ⟨fun a b => le_total (distFn loc a.location) (distFn loc b.location)⟩
  haveI : IsTrans HistoricalFireRecord (nearerThan distFn loc) :=
    ⟨fun _ _ _ hab hbc => le_trans hab hbc⟩
  unfold selectNearestFires
  exact (List.sorted_insertionSort (nearerThan distFn loc) _).sublist
    (List.take_sublist 15 _)

theorem selectNearestFires_complete (distFn : Location → FireLocation → ℚ)
    (hist : List HistoricalFireRecord) (loc : Location) (radius : ℚ) :
    ∀ f ∈ hist, distFn loc f.location ≤ radius →
      f ∉ selectNearestFires distFn hist loc radius →
      (selectNearestFires distFn hist loc radius).length = 15 ∧
      ∀ g ∈ selectNearestFires distFn hist loc radius,
        distFn loc g.location ≤ distFn loc f.location := by
  haveI : IsTotal HistoricalFireRecord (nearerThan distFn loc) :=
    ⟨fun a b => le_total (distFn loc a.location) (distFn loc b.location)⟩
  haveI : IsTrans HistoricalFireRecord (nearerThan distFn loc) :=
    ⟨fun _ _ _ hab hbc => le_trans hab hbc⟩
  intro f hf hdist hnot
  set sorted :=
    (hist.filter
      (fun fire => decide (distFn loc fire.location ≤ radius))).insertionSort
      (nearerThan distFn loc) with hsorted_def
  have hsel : selectNearestFires distFn hist loc radius = sorted.take 15 := rfl
  have hfl : f ∈ sorted := by
    rw [hsorted_def, List.mem_insertionSort, List.mem_filter]
    exact ⟨hf, decide_eq_true hdist⟩
  have hfdrop : f ∈ sorted.drop 15 := by
    have := List.take_append_drop 15 sorted
    rw [← this] at hfl
    rcases List.mem_append.mp hfl with h | h
    · exact absurd (hsel ▸ h) hnot
    · exact h
  have hlen : 15 < sorted.length := by
    by_contra hle
    push_neg at hle
    rw [List.drop_eq_nil_iff.mpr hle] at hfdrop
    exact List.not_mem_nil f hfdrop
  constructor
  · rw [hsel, List.length_take]
    omega
  · intro g hg
    have hsorted : sorted.Pairwise (nearerThan distFn loc) :=
      List.sorted_insertionSort (nearerThan distFn loc) _
    have hsplit := List.take_append_drop 15 sorted
    rw [← hsplit] at hsorted
    have hrel := (List.pairwise_append.mp hsorted).2.2
    exact hrel g (hsel ▸ hg) f hfdrop

/-- C4: the orchestrator's working radius is 30 km when more than 20
records lie within the 50 km probe radius, 75 km when fewer than 5 do,
and 50 km otherwise; the candidate list handed to the scorer
(`selectNearestFires`, called with `chooseRadius` inside
`getWildfireRisk`) holds at most 15 records, only records of the store
within the chosen radius, sorted ascending by distance, and omits a
within-radius record only when it already holds 15 records at least as
close. -/
theorem adaptiveRadius_selection_spec (distFn : Location → FireLocation → ℚ)
    (hist : List HistoricalFireRecord) (loc : Location) :
    (20 < (hist.filter (fun f => decide (distFn loc f.location ≤ 50))).length →
      chooseRadius distFn hist loc = 30) ∧
    ((hist.filter (fun f => decide (distFn loc f.location ≤ 50))).length < 5 →
      chooseRadius distFn hist loc = 75) ∧
    (5 ≤ (hist.filter (fun f => decide (distFn loc f.location ≤ 50))).length →
      (hist.filter (fun f => decide (distFn loc f.location ≤ 50))).length ≤ 20 →
      chooseRadius distFn hist loc = 50) ∧
    (∀ radius,
      (selectNearestFires distFn hist loc radius).length ≤ 15 ∧
      (∀ f ∈ selectNearestFires distFn hist loc radius,
        f ∈ hist ∧ distFn loc f.location ≤ radius) ∧
      (selectNearestFires distFn hist loc radius).Sorted (nearerThan distFn loc) ∧
      (∀ f ∈ hist, distFn loc f.location ≤ radius →
        f ∉ selectNearestFires distFn hist loc radius →
        (selectNearestFires distFn hist loc radius).length = 15 ∧
        ∀ g ∈ selectNearestFires distFn hist loc radius,
          distFn loc g.location ≤ distFn loc f.location)) := by
  refine ⟨?_, ?_, ?_, fun radius =>
    ⟨selectNearestFires_length_le distFn hist loc radius,
     selectNearestFires_mem distFn hist loc radius,
     selectNearestFires_sorted distFn hist loc radius,
     selectNearestFires_complete distFn hist loc radius⟩⟩
  · intro h
    simp only [chooseRadius]
    rw [if_pos h]
  · intro h
    simp only [chooseRadius]
    rw [if_neg (by omega), if_pos h]
  · intro h5 h20
    simp only [chooseRadius]
    rw [if_neg (by omega), if_neg (by omega)]

/-- Witness for C4: with an empty store the probe count 0 is below 5, so
the radius widens to 75 km. -/
theorem adaptiveRadius_selection_spec_witness :
    chooseRadius zeroDist [] { lat := 0, lng := 0 } = 75 :=
  (adaptiveRadius_selection_spec zeroDist [] { lat := 0, lng := 0 }).2.1 (by decide)



/-- C7 counterexample: the claim asserts every admitted record has
non-negative `area_burned`, but `unifyRecord` copies a raw numeric area
unchanged, so a raw entry with numeric coordinates and
`area_burned = -1` is admitted with a negative stored area. -/
theorem unifyRecord_negativeArea_counterexample :
    (unifyRecord rawNegativeArea).map (fun r => r.area_burned) = some (-1) ∧
    (-1 : ℚ) < 0 := by
  constructor
  · rfl
  · norm_num

/-- C7 (amended): every record admitted by `unifyRecord` carries exactly
the raw numeric latitude/longitude (raw entries lacking numeric
coordinates are discarded and never stored), and its `area_burned` is 0
when the raw field is absent or non-numeric and is the raw numeric value
unchanged otherwise — which may be negative, as non-negativity is not
enforced. -/
theorem unifyRecord_admission (raw : RawRecord) (rec : HistoricalFireRecord) :
    (unifyRecord raw = some rec →
      ∃ loc lat lng, raw.location = some loc ∧ loc.latitude = JVal.jnum lat ∧
        loc.longitude = JVal.jnum lng ∧
        rec.location = { latitude := lat, longitude := lng }) ∧
    ((raw.location = none ∨
      ∃ loc, raw.location = some loc ∧ ∀ lat lng,
        ¬(loc.latitude = JVal.jnum lat ∧ loc.longitude = JVal.jnum lng)) →
      unifyRecord raw = none) ∧
    (unifyRecord raw = some rec → (∀ q, raw.area_burned ≠ JVal.jnum q) →
      rec.area_burned = 0) ∧
    (unifyRecord raw = some rec → ∀ q, raw.area_burned = JVal.jnum q →
      rec.area_burned = q) := by
  refine ⟨?_, ?_, ?_, ?_⟩
  · intro h
    unfold unifyRecord at h
    split at h
    · exact Option.noConfusion h
    · split at h
      · rename_i lat lng hlat hlng
        injection h with h2
        refine ⟨_, lat, lng, ?_, hlat, hlng, ?_⟩
        · assumption
        · rw [← h2]
      · exact Option.noConfusion h
  · rintro (hL | ⟨loc, hL, hno⟩)
    · unfold unifyRecord
      rw [hL]
    · simp only [unifyRecord, hL]
      split
      · rename_i lat lng hlat hlng
        exact absurd ⟨hlat, hlng⟩ (hno lat lng)
      · rfl
  · intro h hq
    unfold unifyRecord at h
    split at h
    · exact Option.noConfusion h
    · split at h
      · injection h with h2
        rw [← h2]
        show unifyArea raw = 0
        unfold unifyArea
        split
        · rename_i q hA; exact absurd hA (hq q)
        · rfl
      · exact Option.noConfusion h
  · intro h q hq
    unfold unifyRecord at h
    split at h
    · exact Option.noConfusion h
    · split at h
      · injection h with h2
        rw [← h2]
        show unifyArea raw = q
        unfold unifyArea
        rw [hq]
      · exact Option.noConfusion h

/-- Witness for C7 (amended): a raw entry with numeric coordinates and no
area field is admitted with coordinates copied and area defaulted to 0. -/
theorem unifyRecord_admission_witness :
    recNoArea.location = { latitude := 1, longitude := 2 } ∧
    recNoArea.area_burned = 0 :=
  ⟨rfl,
   (unifyRecord_admission rawNoArea recNoArea).2.2.1 (by rfl)
     (fun q h => JVal.noConfusion h)⟩

theorem ce_fireScoreR : fireScore zeroDist clockRecent envCold 75 fireA = 3 := by
  have hsev : adjustSeverityForLandscape "extreme" (clockRecent.year - 2020)
      TerrainType.unknown = 3 := by decide
  have hrec : getRecencyFactor clockRecent { year := 2020, month := 1, day := 1 } = 1 := by
    norm_num [getRecencyFactor, dateTimeMs, clockRecent,
      (by decide : daysFromCivil 2020 1 1 = 18262)]
  have hseas : getSeasonalityFactor clockRecent
      { year := 2020, month := 1, day := 1 } 0 0 = 1 := by decide
  have hcause : getCauseFactor "Unknown" = 1 := by decide
  have hdw : getDistanceWeight 0 75 = 1 := by decide
  simp only [fireScore, fireA, envCold, zeroDist]
  rw [hrec, hseas, hcause, hdw, hsev]
  norm_num

theorem ce_fireScoreL : fireScore zeroDist clockLate envCold 75 fireA = 0.6 := by
  have hsev : adjustSeverityForLandscape "extreme" (clockLate.year - 2020)
      TerrainType.unknown = 3 := by decide
  have hrec : getRecencyFactor clockLate { year := 2020, month := 1, day := 1 } = 0.2 := by
    norm_num [getRecencyFactor, dateTimeMs, clockLate,
      (by decide : daysFromCivil 2020 1 1 = 18262)]
  have hseas : getSeasonalityFactor clockLate
      { year := 2020, month := 1, day := 1 } 0 0 = 1 := by decide
  have hcause : getCauseFactor "Unknown" = 1 := by decide
  have hdw : getDistanceWeight 0 75 = 1 := by decide
  simp only [fireScore, fireA, envCold, zeroDist]
  rw [hrec, hseas, hcause, hdw, hsev]
  norm_num

theorem ce_compR :
    computeRiskFromHistoryAndRealTime zeroDist clockRecent envCold [fireA] 75 = 4 := by
  have hover : getOverlappingFiresPenalty [fireA] = 0 := by
    norm_num [getOverlappingFiresPenalty, fireA, List.dedup_cons_of_not_mem,
      List.count_cons]
  have hconsec : getConsecutiveYearPenalty [fireA] = 0 := by decide
  simp only [computeRiskFromHistoryAndRealTime, List.map_cons, List.map_nil,
    List.sum_cons, List.sum_nil, ce_fireScoreR, hconsec, hover]
  norm_num [envCold, tempBonus, aqiBonus, drynessBonus, humidityBonus, windBonus,
    timeBonus]

theorem ce_compL :
    computeRiskFromHistoryAndRealTime zeroDist clockLate envCold [fireA] 75 = 1.6 := by
  have hover : getOverlappingFiresPenalty [fireA] = 0 := by
    norm_num [getOverlappingFiresPenalty, fireA, List.dedup_cons_of_not_mem,
      List.count_cons]
  have hconsec : getConsecutiveYearPenalty [fireA] = 0 := by decide
  simp only [computeRiskFromHistoryAndRealTime, List.map_cons, List.map_nil,
    List.sum_cons, List.sum_nil, ce_fireScoreL, hconsec, hover]
  norm_num [envCold, tempBonus, aqiBonus, drynessBonus, humidityBonus, windBonus,
    timeBonus]

theorem ce_levelR :
    (getWildfireRisk zeroDist clockRecent [fireA] FetchResult.failure envCold).riskLevel =
      DangerLevel.low := by
  have h1 : chooseRadius zeroDist [fireA] envCold.location = 75 := by decide
  have h2 : selectNearestFires zeroDist [fireA] envCold.location 75 = [fireA] := by decide
  have h3 : (assessDangerLevel envCold).level = DangerLevel.noRisk := by decide
  have h4 : determineRiskLevel 4 DangerLevel.noRisk = DangerLevel.low := by decide
  simp only [getWildfireRisk, h1, h2, ce_compR, getActiveFirePenalty]
  norm_num [h3, h4]

theorem ce_levelL :
    (getWildfireRisk zeroDist clockLate [fireA] FetchResult.failure envCold).riskLevel =
      DangerLevel.noRisk := by
  have h1 : chooseRadius zeroDist [fireA] envCold.location = 75 := by decide
  have h2 : selectNearestFires zeroDist [fireA] envCold.location 75 = [fireA] := by decide
  have h3 : (assessDangerLevel envCold).level = DangerLevel.noRisk := by decide
  simp only [getWildfireRisk, h1, h2, ce_compL, getActiveFirePenalty]
  norm_num [h3, determineRiskLevel, scoreBasedRiskOf]
  decide

/-- C8 counterexample: with the identical historical collection
`[fireA]`, the identical (absent) feed response and the identical
environmental input, two invocations at different wall-clock times return
different risk levels ("low" shortly after the fire, "no risk" 26 years
later), because the recency factor reads the current time.  So
`assessRisk` is not deterministic in the historical data and feed
response alone. -/
theorem assessRisk_time_dependence_counterexample :
    (getWildfireRisk zeroDist clockRecent [fireA] FetchResult.failure envCold).riskLevel =
      DangerLevel.low ∧
    (getWildfireRisk zeroDist clockLate [fireA] FetchResult.failure envCold).riskLevel =
      DangerLevel.noRisk ∧
    DangerLevel.low ≠ DangerLevel.noRisk :=
  ⟨ce_levelR, ce_levelL, by decide⟩

/-- C8 (amended): `getWildfireRisk` is deterministic given identical
historical data, an identical (or absent) active-fire feed response AND
an identical wall-clock reading — the clock is a genuine input of the
computation through the recency, seasonality and severity-age factors. -/
theorem assessRisk_deterministic (distFn : Location → FireLocation → ℚ)
    (nowA nowB : Clock) (histA histB : List HistoricalFireRecord)
    (feedA feedB : FetchResult) (envA envB : EnvironmentalData)
    (hnow : nowA = nowB) (hhist : histA = histB) (hfeed : feedA = feedB)
    (henv : envA = envB) :
    getWildfireRisk distFn nowA histA feedA envA =
      getWildfireRisk distFn nowB histB feedB envB := by
  subst hnow hhist hfeed henv
  rfl

/-- Witness for C8 (amended) at concrete equal inputs. -/
theorem assessRisk_deterministic_witness :
    getWildfireRisk zeroDist clockRecent [fireA] FetchResult.failure envCold =
      getWildfireRisk zeroDist clockRecent [fireA] FetchResult.failure envCold :=
  assessRisk_deterministic zeroDist clockRecent clockRecent [fireA] [fireA]
    FetchResult.failure FetchResult.failure envCold envCold rfl rfl rfl rfl

theorem getRecencyFactor_nonneg (now : Clock) (d : FireDate) :
    0 ≤ getRecencyFactor now d := by
  simp only [getRecencyFactor]
  split_ifs <;> norm_num

theorem getCauseFactor_nonneg (c : String) : 0 ≤ getCauseFactor c := by
  simp only [getCauseFactor]
  split_ifs <;> norm_num

theorem getSeasonalityFactor_nonneg (now : Clock) (d : FireDate) (lat lng : ℚ) :
    0 ≤ getSeasonalityFactor now d lat lng := by
  simp only [getSeasonalityFactor]
  split_ifs <;> norm_num

theorem getDistanceWeight_nonneg (d r : ℚ) : 0 ≤ getDistanceWeight d r :=
  le_trans (by norm_num) (getDistanceWeight_ge_tenth d r)

theorem adjustSeverity_nonneg (s : String) (y : ℤ) (t : TerrainType) :
    0 ≤ adjustSeverityForLandscape s y t := by
  simp only [adjustSeverityForLandscape]
  split_ifs <;> norm_num

theorem fireScore_nonneg (distFn : Location → FireLocation → ℚ) (now : Clock)
    (env : EnvironmentalData) (maxRadius : ℚ) (fire : HistoricalFireRecord) :
    0 ≤ fireScore distFn now env maxRadius fire := by
  simp only [fireScore]
  refine mul_nonneg (mul_nonneg (mul_nonneg (mul_nonneg (mul_nonneg
    (adjustSeverity_nonneg _ _ _) ?_) (getRecencyFactor_nonneg _ _))
    (getCauseFactor_nonneg _)) (getSeasonalityFactor_nonneg _ _ _ _))
    (getDistanceWeight_nonneg _ _)
  split_ifs <;> norm_num

theorem getPenaltyByConsecutiveCount_nonneg (c : ℕ) :
    0 ≤ getPenaltyByConsecutiveCount c := by
  unfold getPenaltyByConsecutiveCount
  split_ifs <;> norm_num

theorem consecScan_nonneg (ys : List ℤ) : ∀ prev c, 0 ≤ consecScan prev c ys := by
  induction ys with
  | nil =>
    intro prev c
    unfold consecScan
    split_ifs
    · exact getPenaltyByConsecutiveCount_nonneg c
    · norm_num
  | cons y ys ih =>
    intro prev c
    unfold consecScan
    split_ifs
    · exact ih y (c + 1)
    · exact add_nonneg (getPenaltyByConsecutiveCount_nonneg c) (ih y 1)
    · exact add_nonneg (by norm_num) (ih y 1)

theorem getConsecutiveYearPenalty_nonneg (fires : List HistoricalFireRecord) :
    0 ≤ getConsecutiveYearPenalty fires := by
  unfold getConsecutiveYearPenalty
  split_ifs
  · norm_num
  · cases sortYears fires with
    | nil => norm_num
    | cons y ys => exact consecScan_nonneg ys y 1

theorem getOverlappingFiresPenalty_nonneg (fires : List HistoricalFireRecord) :
    0 ≤ getOverlappingFiresPenalty fires := by
  simp only [getOverlappingFiresPenalty]
  refine List.sum_nonneg ?_
  intro x hx
  obtain ⟨y, hy, rfl⟩ := List.mem_map.mp hx
  split_ifs with h
  · refine mul_nonneg ?_ (by norm_num)
    have h1 : (1 : ℚ) ≤ ((fires.map (fun f => f.date.year)).count y : ℚ) := by
      exact_mod_cast Nat.one_le_iff_ne_zero.mpr (by omega)
    linarith
  · norm_num

theorem tempBonus_nonneg (t : ℚ) : 0 ≤ tempBonus t := by
  unfold tempBonus; split_ifs <;> norm_num

theorem aqiBonus_nonneg (a : Option ℚ) : 0 ≤ aqiBonus a := by
  cases a <;> simp only [aqiBonus] <;> (try split_ifs) <;> norm_num

theorem drynessBonus_nonneg (a : Option ℚ) : 0 ≤ drynessBonus a := by
  cases a <;> simp only [drynessBonus] <;> (try split_ifs) <;> norm_num

theorem humidityBonus_nonneg (a : Option ℚ) : 0 ≤ humidityBonus a := by
  cases a <;> simp only [humidityBonus] <;> (try split_ifs) <;> norm_num

theorem windBonus_nonneg (a : Option ℚ) : 0 ≤ windBonus a := by
  cases a <;> simp only [windBonus] <;> (try split_ifs) <;> norm_num

theorem timeBonus_nonneg (a : Option ℚ) : 0 ≤ timeBonus a := by
  cases a <;> simp only [timeBonus] <;> (try split_ifs) <;> norm_num

theorem scoreBased_ge_low (s : ℚ) (h : 2 ≤ s) :
    2 ≤ levelIndex (scoreBasedRiskOf s) := by
  unfold scoreBasedRiskOf
  split_ifs with h1 h2 h3 h4 <;> decide

/-- C10: the scorer's total is bounded below by the frequency score
`min(candidateCount, 5)` — every per-fire score, both penalties and every
real-time bonus are non-negative — so a point with at least 2 candidate
fires gets a score-based level of at least "low" (index 2). -/
theorem scorer_frequency_floor (distFn : Location → FireLocation → ℚ)
    (now : Clock) (env : EnvironmentalData) (fires : List HistoricalFireRecord)
    (maxRadius : ℚ) :
    ((min fires.length 5 : ℕ) : ℚ) ≤
      computeRiskFromHistoryAndRealTime distFn now env fires maxRadius ∧
    (2 ≤ fires.length →
      2 ≤ levelIndex (scoreBasedRiskOf
        (computeRiskFromHistoryAndRealTime distFn now env fires maxRadius))) := by
  have hfloor : ((min fires.length 5 : ℕ) : ℚ) ≤
      computeRiskFromHistoryAndRealTime distFn now env fires maxRadius := by
    simp only [computeRiskFromHistoryAndRealTime]
    have hhist : 0 ≤ (fires.map (fireScore distFn now env maxRadius)).sum := by
      refine List.sum_nonneg ?_
      intro x hx
      obtain ⟨f, _, rfl⟩ := List.mem_map.mp hx
      exact fireScore_nonneg distFn now env maxRadius f
    have h1 := getConsecutiveYearPenalty_nonneg fires
    have h2 := getOverlappingFiresPenalty_nonneg fires
    have h3 := tempBonus_nonneg env.temperature
    have h4 := aqiBonus_nonneg env.airQuality
    have h5 := drynessBonus_nonneg env.drynessIndex
    have h6 := humidityBonus_nonneg env.humidity
    have h7 := windBonus_nonneg env.windSpeed
    have h8 := timeBonus_nonneg env.timeOfDay
    linarith
  refine ⟨hfloor, fun h2 => ?_⟩
  refine scoreBased_ge_low _ ?_
  have hmin : 2 ≤ min fires.length 5 := le_min h2 (by norm_num)
  have hcast : (2 : ℚ) ≤ ((min fires.length 5 : ℕ) : ℚ) := by exact_mod_cast hmin
  linarith

/-- Witness for C10: two candidate fires give a score-based level of at
least "low". -/
theorem scorer_frequency_floor_witness :
    2 ≤ levelIndex (scoreBasedRiskOf
      (computeRiskFromHistoryAndRealTime zeroDist clockRecent envCold
        [fireA, fireB] 75)) :=
  (scorer_frequency_floor zeroDist clockRecent envCold [fireA, fireB] 75).2
    (by decide)
